import Mathlib

/-!
Shallow embedding of the resilient request/aggregation layer of
LiteObject/github-traffic-analyzer (`app.py`, class `GitHubTrafficFetcher`).

Network interaction is modelled by an injected environment mapping each
HTTP attempt to its outcome (a response, a network-level error, or another
request exception).  Time is a rational-valued clock carried in the transport
state; `time.sleep(d)` advances the clock by `d` (and, as in CPython, raises
`ValueError` for negative `d`).  Python exceptions that escape a function are
modelled with `Except`; the explicit `None` failure value is `Option.none`.
-/

namespace GHTraffic

/-- A Python exception kind relevant to this code: `int(...)` on a
non-integer string raises `ValueError`; attribute access on `None`
raises `AttributeError`; `time.sleep` of a negative duration raises
`ValueError`. -/
inductive PyError
  | valueError
  | attributeError
deriving DecidableEq

/-- Value of an HTTP header as seen through `response.headers.get`:
missing (`None`), the empty string, a well-formed integer string, or a
non-empty non-integer string. -/
inductive HeaderVal
  | absent
  | emptyStr
  | intVal (n : Int)
  | malformed
deriving DecidableEq

/-- Python truthiness of the value returned by `headers.get`: `None` and
the empty string are falsy, every non-empty string is truthy. -/
def HeaderVal.truthy : HeaderVal → Bool
  | .intVal _ => true
  | .malformed => true
  | _ => false

/-- Semantics of `int(value)` applied to a header value: succeeds only on a
well-formed integer string, raising `ValueError` otherwise. -/
def HeaderVal.toInt : HeaderVal → Except PyError Int
  | .intVal n => .ok n
  | _ => .error .valueError

/-- An HTTP response as consumed by the fetcher: status code, the three
headers the code reads (`X-RateLimit-Remaining`, `X-RateLimit-Reset`,
`Retry-After`), and the already-parsed JSON body of type `α`. -/
structure Response (α : Type) where
  status : Int
  remaining : HeaderVal
  reset : HeaderVal
  retryAfter : HeaderVal
  body : α
deriving DecidableEq

/-- Mutable per-Transport state: `self.retry_delay` (set to `2` in
`__init__`) and the wall clock read by `time.time()`. -/
structure TransportState where
  retry_delay : ℚ
  clock : ℚ
deriving DecidableEq

/-- State of a freshly constructed `GitHubTrafficFetcher`
(`self.retry_delay = 2`), with the clock started at `0`. -/
def initState : TransportState := ⟨2, 0⟩

/-- Model of `time.sleep(d)`: advances the clock by `d`; raises
`ValueError` when `d` is negative (CPython behaviour). -/
def pySleep (d : ℚ) (s : TransportState) : Except PyError TransportState :=
  if d < 0 then .error .valueError
  else .ok { s with clock := s.clock + d }

/-- Embedding of `check_rate_limit(self, response)`: on a truthy
`X-RateLimit-Remaining` below 50, sleeps `max(reset - time.time(), 0) + 5`
seconds when `X-RateLimit-Reset` is truthy, else 60 seconds.  Returns the
updated state together with the list of sleep durations performed, or the
escaping exception (`int(...)` on a malformed header). -/
def check_rate_limit (resp : Option (Response α)) (s : TransportState) :
    Except PyError (TransportState × List ℚ) :=
  match resp with
  | none => .ok (s, [])
  | some r =>
    if r.remaining.truthy then
      match r.remaining.toInt with
      | .error e => .error e
      | .ok rem =>
        if rem < 50 then
          if r.reset.truthy then
            match r.reset.toInt with
            | .error e => .error e
            | .ok t =>
              let sleep_time : ℚ := max ((t : ℚ) - s.clock) 0 + 5
              match pySleep sleep_time s with
              | .error e => .error e
              | .ok s' => .ok (s', [sleep_time])
          else
            match pySleep 60 s with
            | .error e => .error e
            | .ok s' => .ok (s', [60])
        else .ok (s, [])
    else .ok (s, [])

/-- Outcome of one `self.session.get(...)` attempt, as injected by the
environment: a `ReadTimeout`/`ConnectionError`, another `RequestException`,
or a response. -/
inductive AttemptOutcome (α : Type)
  | networkError
  | requestException
  | response (r : Response α)

/-- Value of `int(response.headers.get('Retry-After', 60))`: the integer
default 60 when the header is missing, the parsed integer when well formed,
`ValueError` otherwise. -/
def retryAfterValue (r : Response α) : Except PyError Int :=
  match r.retryAfter with
  | .absent => .ok 60
  | .intVal n => .ok n
  | .emptyStr => .error .valueError
  | .malformed => .error .valueError

deriving instance DecidableEq for Except

/-- Observable outcome of one `make_request` call: the returned value
(`Response` or `None`) or the escaping exception, the transport state on
exit, the sleep durations performed, and the number of `session.get`
attempts issued. -/
structure MRResult (α : Type) where
  result : Except PyError (Option (Response α))
  state : TransportState
  sleeps : List ℚ
  attempts : Nat
deriving DecidableEq

/-- Body of the `for attempt in range(self.max_retries)` loop of
`make_request`.  `remaining` counts loop iterations still available
(`max_retries - attempt`), `idx` indexes the environment by attempts made
in this call.  A 429 sleeps `Retry-After` and `continue`s — which, in a
Python `for` loop, still advances `attempt`.  A non-429 response runs
`check_rate_limit`, resets `retry_delay` to 2 and is returned.  A network
error on a non-final iteration sleeps `retry_delay` and doubles it; on the
final iteration `None` is returned.  Any other `RequestException` returns
`None` immediately.  When the loop exhausts, `None` is returned. -/
def mrLoop (env : Nat → AttemptOutcome α) :
    Nat → Nat → TransportState → MRResult α
  | 0, _, s => ⟨.ok none, s, [], 0⟩
  | remaining + 1, idx, s =>
    match env idx with
    | .response r =>
      if r.status = 429 then
        match retryAfterValue r with
        | .error e => ⟨.error e, s, [], 1⟩
        | .ok ra =>
          match pySleep (ra : ℚ) s with
          | .error e => ⟨.error e, s, [], 1⟩
          | .ok s' =>
            let rest := mrLoop env remaining (idx + 1) s'
            ⟨rest.result, rest.state, (ra : ℚ) :: rest.sleeps, rest.attempts + 1⟩
      else
        match check_rate_limit (some r) s with
        | .error e => ⟨.error e, s, [], 1⟩
        | .ok (s', ds) =>
          ⟨.ok (some r), { s' with retry_delay := 2 }, ds, 1⟩
    | .networkError =>
      if remaining = 0 then
        ⟨.ok none, s, [], 1⟩
      else
        match pySleep s.retry_delay s with
        | .error e => ⟨.error e, s, [], 1⟩
        | .ok s' =>
          let s2 := { s' with retry_delay := s'.retry_delay * 2 }
          let rest := mrLoop env remaining (idx + 1) s2
          ⟨rest.result, rest.state, s.retry_delay :: rest.sleeps, rest.attempts + 1⟩
    | .requestException => ⟨.ok none, s, [], 1⟩

/-- The constant `self.max_retries = 3` set in `__init__`. -/
def max_retries : Nat := 3

/-- Embedding of `make_request(self, url, params)`: runs the retry loop
with `max_retries = 3` attempts over the injected attempt environment. -/
def make_request (env : Nat → AttemptOutcome α) (s : TransportState) :
    MRResult α :=
  mrLoop env max_retries 0 s

/-- Result and exit state of a call above the transport layer. -/
structure CallOut (γ : Type) where
  result : Except PyError γ
  state : TransportState
deriving DecidableEq

/-- Embedding of `get_repo_views(self, repo_name)`:
`if response and response.status_code == 200: return response.json()`,
`elif response:` print an error; in all non-200 cases `None` is returned
(the `elif response:` guard makes the `None` response safe here). -/
def get_repo_views (env : Nat → AttemptOutcome β) (s : TransportState) :
    CallOut (Option β) :=
  let mr := make_request env s
  match mr.result with
  | .error e => ⟨.error e, mr.state⟩
  | .ok (some r) =>
    if r.status = 200 then ⟨.ok (some r.body), mr.state⟩
    else ⟨.ok none, mr.state⟩
  | .ok none => ⟨.ok none, mr.state⟩

/-- Embedding of `get_repo_clones(self, repo_name)`: unlike
`get_repo_views`, the error print runs `response.status_code`
unconditionally, so a `None` response (transport Failure) raises
`AttributeError` instead of returning `None`. -/
def get_repo_clones (env : Nat → AttemptOutcome β) (s : TransportState) :
    CallOut (Option β) :=
  let mr := make_request env s
  match mr.result with
  | .error e => ⟨.error e, mr.state⟩
  | .ok (some r) =>
    if r.status = 200 then ⟨.ok (some r.body), mr.state⟩
    else ⟨.ok none, mr.state⟩
  | .ok none => ⟨.error .attributeError, mr.state⟩

/-- Embedding of `get_repo_referrers(self, repo_name)`: same shape as
`get_repo_clones`, including the unguarded `response.status_code` in the
error print. -/
def get_repo_referrers (env : Nat → AttemptOutcome β) (s : TransportState) :
    CallOut (Option β) :=
  let mr := make_request env s
  match mr.result with
  | .error e => ⟨.error e, mr.state⟩
  | .ok (some r) =>
    if r.status = 200 then ⟨.ok (some r.body), mr.state⟩
    else ⟨.ok none, mr.state⟩
  | .ok none => ⟨.error .attributeError, mr.state⟩

/-- Embedding of `get_popular_paths(self, repo_name)`: same shape as
`get_repo_clones`, including the unguarded `response.status_code` in the
error print. -/
def get_popular_paths (env : Nat → AttemptOutcome β) (s : TransportState) :
    CallOut (Option β) :=
  let mr := make_request env s
  match mr.result with
  | .error e => ⟨.error e, mr.state⟩
  | .ok (some r) =>
    if r.status = 200 then ⟨.ok (some r.body), mr.state⟩
    else ⟨.ok none, mr.state⟩
  | .ok none => ⟨.error .attributeError, mr.state⟩

/-- Per-repository attempt environments: one attempt stream for each of
the four metric endpoints hit by `get_repo_traffic_data`. -/
structure RepoEnv (β : Type) where
  views : Nat → AttemptOutcome β
  clones : Nat → AttemptOutcome β
  referrers : Nat → AttemptOutcome β
  popular_paths : Nat → AttemptOutcome β

/-- The four metric fields of the `traffic_data` dict built by
`get_repo_traffic_data`; `none` is the Python `None` stored on failure. -/
structure TrafficData (β : Type) where
  views : Option β
  clones : Option β
  referrers : Option β
  popular_paths : Option β
deriving DecidableEq

/-- Model of `time.sleep(self.api_call_delay)` with
`self.api_call_delay = 0.5`; a positive constant never raises. -/
def apiCallSleep (s : TransportState) : TransportState :=
  { s with clock := s.clock + (1 / 2 : ℚ) }

/-- Embedding of `get_repo_traffic_data(self, repo_name)`: fetches views,
clones, referrers and popular paths in that order, sleeping
`api_call_delay` after each of the first three.  An exception raised by
any fetch propagates (aborting the later fetches). -/
def get_repo_traffic_data (env : RepoEnv β) (s : TransportState) :
    CallOut (TrafficData β) :=
  let v := get_repo_views env.views s
  match v.result with
  | .error e => ⟨.error e, v.state⟩
  | .ok vd =>
    let c := get_repo_clones env.clones (apiCallSleep v.state)
    match c.result with
    | .error e => ⟨.error e, c.state⟩
    | .ok cd =>
      let rf := get_repo_referrers env.referrers (apiCallSleep c.state)
      match rf.result with
      | .error e => ⟨.error e, rf.state⟩
      | .ok rd =>
        let p := get_popular_paths env.popular_paths (apiCallSleep rf.state)
        match p.result with
        | .error e => ⟨.error e, p.state⟩
        | .ok pd => ⟨.ok ⟨vd, cd, rd, pd⟩, p.state⟩

/-- A repository object from the list endpoint, with the fields
`get_all_traffic_data` reads (`description` and `language` are nullable
in the API). -/
structure RepoSummary where
  name : String
  full_name : String
  description : Option String
  stargazers_count : Nat
  forks_count : Nat
  language : Option String
  created_at : String
  updated_at : String
deriving DecidableEq

/-- The query parameters of one page request issued by `get_user_repos`:
`{'per_page': 100, 'type': 'owner', 'page': page}`. -/
structure ReqParams where
  per_page : Nat
  req_type : String
  page : Nat
deriving DecidableEq

/-- Observable outcome of `get_user_repos`: accumulated repositories (or
the escaping exception), the parameters of every request issued, and the
exit state. -/
structure PagOut where
  result : Except PyError (List RepoSummary)
  requests : List ReqParams
  state : TransportState
deriving DecidableEq

/-- Body of the `while True` pagination loop of `get_user_repos`,
run on `fuel` (a bound on iterations, a model artifact: `none` means the
bound was hit before the loop stopped).  Breaks on a `None` response, a
non-200 status, or an empty page; otherwise extends the accumulator,
increments the page and sleeps 0.5s. -/
def gurLoop (env : Nat → Nat → AttemptOutcome (List RepoSummary)) :
    Nat → Nat → List RepoSummary → List ReqParams → TransportState →
      Option PagOut
  | 0, _, _, _, _ => none
  | fuel + 1, page, acc, reqs, s =>
    let reqs2 := reqs ++ [⟨100, "owner", page⟩]
    let mr := make_request (env page) s
    match mr.result with
    | .error e => some ⟨.error e, reqs2, mr.state⟩
    | .ok none => some ⟨.ok acc, reqs2, mr.state⟩
    | .ok (some r) =>
      if r.status ≠ 200 then some ⟨.ok acc, reqs2, mr.state⟩
      else if r.body = [] then some ⟨.ok acc, reqs2, mr.state⟩
      else
        gurLoop env fuel (page + 1) (acc ++ r.body) reqs2
          { mr.state with clock := mr.state.clock + (1 / 2 : ℚ) }

/-- Embedding of `get_user_repos(self)`: pages start at 1; the attempt
environment is indexed by page number. -/
def get_user_repos (env : Nat → Nat → AttemptOutcome (List RepoSummary))
    (fuel : Nat) (s : TransportState) : Option PagOut :=
  gurLoop env fuel 1 [] [] s

/-- The `repository_info` dict stored for each repository by
`get_all_traffic_data`, with exactly its eight keys. -/
structure RepoInfo where
  name : String
  full_name : String
  description : Option String
  stars : Nat
  forks : Nat
  language : Option String
  created_at : String
  updated_at : String
deriving DecidableEq

/-- The `repository_info` literal of `get_all_traffic_data`, built from
the repository object. -/
def mkRepoInfo (r : RepoSummary) : RepoInfo :=
  ⟨r.name, r.full_name, r.description, r.stargazers_count, r.forks_count,
   r.language, r.created_at, r.updated_at⟩

/-- One value of the `all_traffic_data` dict after
`all_traffic_data[repo_name] = {'repository_info': ...}` followed by
`.update(traffic_data)`: the info plus the four metric fields. -/
structure RepoRecord (β : Type) where
  repository_info : RepoInfo
  views : Option β
  clones : Option β
  referrers : Option β
  popular_paths : Option β
deriving DecidableEq

/-- Python-dict assignment `d[k] = v` on an insertion-ordered association
list: overwrites an existing binding in place, else appends. -/
def dictInsert (k : String) (v : γ) : List (String × γ) → List (String × γ)
  | [] => [(k, v)]
  | (k', v') :: rest =>
    if k' = k then (k, v) :: rest else (k', v') :: dictInsert k v rest

/-- Python-dict lookup on the association list. -/
def dictFind (k : String) : List (String × γ) → Option γ
  | [] => none
  | (k', v') :: rest => if k' = k then some v' else dictFind k rest

/-- Result and exit state of `get_all_traffic_data`. -/
structure RunOut (β : Type) where
  result : Except PyError (List (String × RepoRecord β))
  state : TransportState
deriving DecidableEq

/-- Body of the `for i, repo in enumerate(repos, 1)` loop of
`get_all_traffic_data`: stores the record for the repository (info plus
the four fetched metrics), then sleeps `self.repo_delay = 2` seconds when
`i < total_repos`.  An exception from the collector propagates. -/
def gatLoop (renv : Nat → RepoEnv β) (total : Nat) :
    List RepoSummary → Nat → List (String × RepoRecord β) →
      TransportState → RunOut β
  | [], _, acc, s => ⟨.ok acc, s⟩
  | repo :: rest, i, acc, s =>
    let td := get_repo_traffic_data (renv i) s
    match td.result with
    | .error e => ⟨.error e, td.state⟩
    | .ok t =>
      let record : RepoRecord β :=
        ⟨mkRepoInfo repo, t.views, t.clones, t.referrers, t.popular_paths⟩
      let acc2 := dictInsert repo.name record acc
      let s2 := if i < total then { td.state with clock := td.state.clock + 2 }
                else td.state
      gatLoop renv total rest (i + 1) acc2 s2

/-- The whole-network environment of one run: per-page attempt streams for
repository enumeration and per-repository metric environments, indexed by
1-based position in enumeration order. -/
structure RunEnv (β : Type) where
  pages : Nat → Nat → AttemptOutcome (List RepoSummary)
  repoEnv : Nat → RepoEnv β

/-- Embedding of `get_all_traffic_data(self)`: enumerates repositories via
`get_user_repos`; an empty list is a normal terminal state returning `{}`;
otherwise the per-repository loop builds the report.  `none` propagates
the pagination fuel artifact. -/
def get_all_traffic_data (env : RunEnv β) (fuel : Nat) (s : TransportState) :
    Option (RunOut β) :=
  match get_user_repos env.pages fuel s with
  | none => none
  | some pg =>
    match pg.result with
    | .error e => some ⟨.error e, pg.state⟩
    | .ok repos =>
      if repos = [] then some ⟨.ok [], pg.state⟩
      else some (gatLoop env.repoEnv repos.length repos 1 [] pg.state)

/-- Body of a views/clones metric as read by `print_summary`:
`data.get('count', 0)` and `data.get('uniques', 0)`. -/
structure MetricData where
  count : Nat
  uniques : Nat
deriving DecidableEq

/-- Contribution of one record to `total_views`: `views_data.get('count',
0)` when the views field is present, 0 when it is `None`. -/
def viewsCount (r : RepoRecord MetricData) : Nat :=
  match r.views with
  | some v => v.count
  | none => 0

/-- Contribution of one record to `total_unique_views`. -/
def viewsUniques (r : RepoRecord MetricData) : Nat :=
  match r.views with
  | some v => v.uniques
  | none => 0

/-- Contribution of one record to `total_clones`. -/
def clonesCount (r : RepoRecord MetricData) : Nat :=
  match r.clones with
  | some c => c.count
  | none => 0

/-- One iteration of the `for repo_name, data in all_traffic_data.items()`
loop of `print_summary`: the Python guards `if views_data:` /
`if clones_data:` test truthiness; a stored metric dict always carries its
`count`/`uniques` keys and is therefore truthy, so the guards coincide
with presence (`Option.isSome`); `None` is falsy and contributes nothing. -/
def psStep (acc : Nat × Nat × Nat) (kv : String × RepoRecord MetricData) :
    Nat × Nat × Nat :=
  ⟨acc.1 + viewsCount kv.2, acc.2.1 + viewsUniques kv.2,
   acc.2.2 + clonesCount kv.2⟩

/-- Embedding of the totals computed by `print_summary(self,
all_traffic_data)`: folds over the report accumulating
`(total_views, total_unique_views, total_clones)` from zero. -/
def print_summary (report : List (String × RepoRecord MetricData)) :
    Nat × Nat × Nat :=
  report.foldl psStep (0, 0, 0)

/-! ### Shared helper definitions and lemmas -/

/-- A plain 200 response carrying body `b`, with none of the three headers
set. -/
def okResp (b : β) : Response β := ⟨200, .absent, .absent, .absent, b⟩

/-- Headers of a response are benign for `make_request`: `Retry-After` is
absent or a well-formed non-negative integer, and the two rate-limit
headers are not malformed integer strings. -/
def Response.headersOk (r : Response α) : Prop :=
  (r.retryAfter = .absent ∨ ∃ n : Int, 0 ≤ n ∧ r.retryAfter = .intVal n) ∧
  r.remaining ≠ .malformed ∧ r.reset ≠ .malformed

/-- Decides whether `check_rate_limit` raises on this response's headers:
it does exactly when `int()` is applied to a malformed header string. -/
def crlFails (r : Response α) : Bool :=
  match r.remaining with
  | .malformed => true
  | .intVal m =>
    if m < 50 then (if r.reset = .malformed then true else false) else false
  | _ => false

theorem check_rate_limit_error_of_fails (r : Response α) (s : TransportState)
    (h : crlFails r = true) :
    check_rate_limit (some r) s = .error .valueError := by
  cases hrem : r.remaining with
  | malformed => simp [check_rate_limit, hrem, HeaderVal.truthy, HeaderVal.toInt]
  | intVal m =>
    by_cases hm : m < 50
    · by_cases hrs : r.reset = .malformed
      · simp [check_rate_limit, hrem, hrs, HeaderVal.truthy, HeaderVal.toInt, hm]
      · exact absurd h (by simp [crlFails, hrem, hm, hrs])
    · exact absurd h (by simp [crlFails, hrem, hm])
  | absent => exact absurd h (by simp [crlFails, hrem])
  | emptyStr => exact absurd h (by simp [crlFails, hrem])

theorem check_rate_limit_ok_of_not_fails (r : Response α) (s : TransportState)
    (h : crlFails r = false) :
    ∃ p, check_rate_limit (some r) s = .ok p := by
  cases hrem : r.remaining with
  | absent => exact ⟨(s, []), by simp [check_rate_limit, hrem, HeaderVal.truthy]⟩
  | emptyStr => exact ⟨(s, []), by simp [check_rate_limit, hrem, HeaderVal.truthy]⟩
  | malformed => exact absurd h (by simp [crlFails, hrem])
  | intVal m =>
    by_cases hm : m < 50
    · cases hrs : r.reset with
      | malformed => exact absurd h (by simp [crlFails, hrem, hm, hrs])
      | intVal t =>
        have hmax : (0 : ℚ) ≤ max ((t : ℚ) - s.clock) 0 := le_max_right _ _
        have hpos : ¬ (max ((t : ℚ) - s.clock) 0 + 5 < 0) := by linarith
        exact ⟨({ s with clock := s.clock + (max ((t : ℚ) - s.clock) 0 + 5) },
                 [max ((t : ℚ) - s.clock) 0 + 5]),
          by simp [check_rate_limit, hrem, hrs, HeaderVal.truthy, HeaderVal.toInt,
               pySleep, hm, hpos]⟩
      | absent =>
        exact ⟨({ s with clock := s.clock + 60 }, [60]),
          by norm_num [check_rate_limit, hrem, hrs, HeaderVal.truthy,
               HeaderVal.toInt, pySleep, hm]⟩
      | emptyStr =>
        exact ⟨({ s with clock := s.clock + 60 }, [60]),
          by norm_num [check_rate_limit, hrem, hrs, HeaderVal.truthy,
               HeaderVal.toInt, pySleep, hm]⟩
    · refine ⟨(s, []), ?_⟩
      simp [check_rate_limit, hrem, HeaderVal.truthy, HeaderVal.toInt, hm]

theorem crlFails_eq_false_of_headersOk (r : Response α) (h : r.headersOk) :
    crlFails r = false := by
  rcases h with ⟨-, hrem, hres⟩
  cases hr : r.remaining with
  | malformed => exact absurd hr hrem
  | intVal m => simp [crlFails, hr, hres]
  | absent => simp [crlFails, hr]
  | emptyStr => simp [crlFails, hr]

theorem mrLoop_retry_delay_nonneg (env : Nat → AttemptOutcome α) :
    ∀ (rem idx : Nat) (s : TransportState), 0 ≤ s.retry_delay →
      0 ≤ (mrLoop env rem idx s).state.retry_delay := by
  intro rem
  induction rem with
  | zero => intro idx s hs; simpa [mrLoop] using hs
  | succ n ih =>
    intro idx s hs
    cases henv : env idx with
    | requestException => simpa [mrLoop, henv] using hs
    | networkError =>
      by_cases hn : n = 0
      · simpa [mrLoop, henv, hn] using hs
      · have hns : ¬ (s.retry_delay < 0) := not_lt.2 hs
        simp only [mrLoop, henv, hn, pySleep, hns, if_false, if_neg, ite_false]
        exact ih (idx + 1) _ (mul_nonneg hs (by norm_num))
    | response r =>
      by_cases h429 : r.status = 429
      · cases hra : retryAfterValue r with
        | error e => simpa [mrLoop, henv, h429, hra] using hs
        | ok ra =>
          by_cases hneg : (ra : ℚ) < 0
          · simpa [mrLoop, henv, h429, hra, pySleep, hneg] using hs
          · simp only [mrLoop, henv, h429, hra, pySleep, hneg, if_true, if_pos,
              ite_false, ite_true]
            exact ih (idx + 1) _ hs
      · cases hcrl : check_rate_limit (some r) s with
        | error e => simpa [mrLoop, henv, h429, hcrl] using hs
        | ok p => simp [mrLoop, henv, h429, hcrl]

theorem mrLoop_result_indep (env : Nat → AttemptOutcome α) :
    ∀ (rem idx : Nat) (s1 s2 : TransportState),
      0 ≤ s1.retry_delay → 0 ≤ s2.retry_delay →
      (mrLoop env rem idx s1).result = (mrLoop env rem idx s2).result := by
  intro rem
  induction rem with
  | zero => intro idx s1 s2 _ _; simp [mrLoop]
  | succ n ih =>
    intro idx s1 s2 h1 h2
    cases henv : env idx with
    | requestException => simp [mrLoop, henv]
    | networkError =>
      by_cases hn : n = 0
      · simp [mrLoop, henv, hn]
      · have h1n : ¬ (s1.retry_delay < 0) := not_lt.2 h1
        have h2n : ¬ (s2.retry_delay < 0) := not_lt.2 h2
        simp only [mrLoop, henv, hn, pySleep, h1n, h2n, if_false, if_neg, ite_false]
        exact ih (idx + 1) _ _ (mul_nonneg h1 (by norm_num))
          (mul_nonneg h2 (by norm_num))
    | response r =>
      by_cases h429 : r.status = 429
      · cases hra : retryAfterValue r with
        | error e => simp [mrLoop, henv, h429, hra]
        | ok ra =>
          by_cases hneg : (ra : ℚ) < 0
          · simp [mrLoop, henv, h429, hra, pySleep, hneg]
          · simp only [mrLoop, henv, h429, hra, pySleep, hneg, if_true, if_pos,
              ite_false, ite_true]
            exact ih (idx + 1) _ _ h1 h2
      · cases hf : crlFails r with
        | true =>
          simp [mrLoop, henv, h429, check_rate_limit_error_of_fails r s1 hf,
            check_rate_limit_error_of_fails r s2 hf]
        | false =>
          obtain ⟨p1, hp1⟩ := check_rate_limit_ok_of_not_fails r s1 hf
          obtain ⟨p2, hp2⟩ := check_rate_limit_ok_of_not_fails r s2 hf
          simp [mrLoop, henv, h429, hp1, hp2]

theorem mrLoop_ok_of_headersOk (env : Nat → AttemptOutcome α)
    (henv : ∀ k r, env k = .response r → r.headersOk) :
    ∀ (rem idx : Nat) (s : TransportState), 0 ≤ s.retry_delay →
      ∃ o, (mrLoop env rem idx s).result = .ok o := by
  intro rem
  induction rem with
  | zero => intro idx s _; exact ⟨none, by simp [mrLoop]⟩
  | succ n ih =>
    intro idx s hs
    cases he : env idx with
    | requestException => exact ⟨none, by simp [mrLoop, he]⟩
    | networkError =>
      by_cases hn : n = 0
      · exact ⟨none, by simp [mrLoop, he, hn]⟩
      · have hns : ¬ (s.retry_delay < 0) := not_lt.2 hs
        obtain ⟨o, ho⟩ := ih (idx + 1)
          ⟨s.retry_delay * 2, s.clock + s.retry_delay⟩
          (mul_nonneg hs (by norm_num))
        refine ⟨o, ?_⟩
        simp only [mrLoop, he, hn, pySleep, hns, if_false, if_neg, ite_false]
        exact ho
    | response r =>
      have hok := henv idx r he
      by_cases h429 : r.status = 429
      · have hra : ∃ ra : Int, retryAfterValue r = .ok ra ∧ 0 ≤ ra := by
          rcases hok.1 with ha | ⟨m, hm, ha⟩
          · exact ⟨60, by simp [retryAfterValue, ha], by norm_num⟩
          · exact ⟨m, by simp [retryAfterValue, ha], hm⟩
        obtain ⟨ra, hra, hra0⟩ := hra
        have hneg : ¬ ((ra : ℚ) < 0) := by
          rw [not_lt]
          exact_mod_cast hra0
        obtain ⟨o, ho⟩ := ih (idx + 1) ⟨s.retry_delay, s.clock + (ra : ℚ)⟩ hs
        refine ⟨o, ?_⟩
        simp only [mrLoop, he, h429, hra, pySleep, hneg, if_false, if_neg,
          ite_false, if_true, ite_true]
        exact ho
      · obtain ⟨p, hp⟩ := check_rate_limit_ok_of_not_fails r s
          (crlFails_eq_false_of_headersOk r hok)
        exact ⟨some r, by simp [mrLoop, he, h429, hp]⟩

theorem mrLoop_retry_delay_two_of_some (env : Nat → AttemptOutcome α) :
    ∀ (rem idx : Nat) (s : TransportState) (r : Response α),
      (mrLoop env rem idx s).result = .ok (some r) →
      (mrLoop env rem idx s).state.retry_delay = 2 := by
  intro rem
  induction rem with
  | zero => intro idx s r h; simp [mrLoop] at h
  | succ n ih =>
    intro idx s r h
    cases he : env idx with
    | requestException => simp [mrLoop, he] at h
    | networkError =>
      by_cases hn : n = 0
      · simp [mrLoop, he, hn] at h
      · by_cases hns : s.retry_delay < 0
        · simp [mrLoop, he, hn, pySleep, hns] at h
        · simp only [mrLoop, he, hn, pySleep, hns, if_false, if_neg, ite_false] at h ⊢
          exact ih (idx + 1) _ r h
    | response r' =>
      by_cases h429 : r'.status = 429
      · cases hra : retryAfterValue r' with
        | error e => simp [mrLoop, he, h429, hra] at h
        | ok ra =>
          by_cases hneg : (ra : ℚ) < 0
          · simp [mrLoop, he, h429, hra, pySleep, hneg] at h
          · simp only [mrLoop, he, h429, hra, pySleep, hneg, if_false, if_neg,
              ite_false, if_true, ite_true] at h ⊢
            exact ih (idx + 1) _ r h
      · cases hcrl : check_rate_limit (some r') s with
        | error e => simp [mrLoop, he, h429, hcrl] at h
        | ok p => simp [mrLoop, he, h429, hcrl]

theorem make_request_result_indep (env : Nat → AttemptOutcome α)
    (s1 s2 : TransportState) (h1 : 0 ≤ s1.retry_delay)
    (h2 : 0 ≤ s2.retry_delay) :
    (make_request env s1).result = (make_request env s2).result :=
  mrLoop_result_indep env max_retries 0 s1 s2 h1 h2

theorem make_request_retry_delay_nonneg (env : Nat → AttemptOutcome α)
    (s : TransportState) (hs : 0 ≤ s.retry_delay) :
    0 ≤ (make_request env s).state.retry_delay :=
  mrLoop_retry_delay_nonneg env max_retries 0 s hs

theorem get_repo_views_state (env : Nat → AttemptOutcome β)
    (s : TransportState) :
    (get_repo_views env s).state = (make_request env s).state := by
  unfold get_repo_views
  rcases hm : (make_request env s).result with e | o
  · simp [hm]
  · rcases o with - | r
    · simp [hm]
    · by_cases h200 : r.status = 200 <;> simp [hm, h200]

theorem get_repo_clones_state (env : Nat → AttemptOutcome β)
    (s : TransportState) :
    (get_repo_clones env s).state = (make_request env s).state := by
  unfold get_repo_clones
  rcases hm : (make_request env s).result with e | o
  · simp [hm]
  · rcases o with - | r
    · simp [hm]
    · by_cases h200 : r.status = 200 <;> simp [hm, h200]

theorem get_repo_referrers_state (env : Nat → AttemptOutcome β)
    (s : TransportState) :
    (get_repo_referrers env s).state = (make_request env s).state := by
  unfold get_repo_referrers
  rcases hm : (make_request env s).result with e | o
  · simp [hm]
  · rcases o with - | r
    · simp [hm]
    · by_cases h200 : r.status = 200 <;> simp [hm, h200]

theorem get_popular_paths_state (env : Nat → AttemptOutcome β)
    (s : TransportState) :
    (get_popular_paths env s).state = (make_request env s).state := by
  unfold get_popular_paths
  rcases hm : (make_request env s).result with e | o
  · simp [hm]
  · rcases o with - | r
    · simp [hm]
    · by_cases h200 : r.status = 200 <;> simp [hm, h200]

theorem get_repo_views_result_indep (env : Nat → AttemptOutcome β)
    (s1 s2 : TransportState) (h1 : 0 ≤ s1.retry_delay)
    (h2 : 0 ≤ s2.retry_delay) :
    (get_repo_views env s1).result = (get_repo_views env s2).result := by
  have h := make_request_result_indep env s1 s2 h1 h2
  unfold get_repo_views
  rcases hm : (make_request env s2).result with e | o
  · rw [hm] at h; simp [h, hm]
  · rw [hm] at h
    rcases o with - | r
    · simp [h, hm]
    · by_cases h200 : r.status = 200 <;> simp [h, hm, h200]

theorem get_repo_clones_result_indep (env : Nat → AttemptOutcome β)
    (s1 s2 : TransportState) (h1 : 0 ≤ s1.retry_delay)
    (h2 : 0 ≤ s2.retry_delay) :
    (get_repo_clones env s1).result = (get_repo_clones env s2).result := by
  have h := make_request_result_indep env s1 s2 h1 h2
  unfold get_repo_clones
  rcases hm : (make_request env s2).result with e | o
  · rw [hm] at h; simp [h, hm]
  · rw [hm] at h
    rcases o with - | r
    · simp [h, hm]
    · by_cases h200 : r.status = 200 <;> simp [h, hm, h200]

theorem get_repo_referrers_result_indep (env : Nat → AttemptOutcome β)
    (s1 s2 : TransportState) (h1 : 0 ≤ s1.retry_delay)
    (h2 : 0 ≤ s2.retry_delay) :
    (get_repo_referrers env s1).result = (get_repo_referrers env s2).result := by
  have h := make_request_result_indep env s1 s2 h1 h2
  unfold get_repo_referrers
  rcases hm : (make_request env s2).result with e | o
  · rw [hm] at h; simp [h, hm]
  · rw [hm] at h
    rcases o with - | r
    · simp [h, hm]
    · by_cases h200 : r.status = 200 <;> simp [h, hm, h200]

theorem get_popular_paths_result_indep (env : Nat → AttemptOutcome β)
    (s1 s2 : TransportState) (h1 : 0 ≤ s1.retry_delay)
    (h2 : 0 ≤ s2.retry_delay) :
    (get_popular_paths env s1).result = (get_popular_paths env s2).result := by
  have h := make_request_result_indep env s1 s2 h1 h2
  unfold get_popular_paths
  rcases hm : (make_request env s2).result with e | o
  · rw [hm] at h; simp [h, hm]
  · rw [hm] at h
    rcases o with - | r
    · simp [h, hm]
    · by_cases h200 : r.status = 200 <;> simp [h, hm, h200]

theorem apiCallSleep_retry_delay (s : TransportState) :
    (apiCallSleep s).retry_delay = s.retry_delay := rfl

/-- C9: repeating `collect(repositoryName)` against identical injected
responses yields identical TrafficRecord results: the outcome of
`get_repo_traffic_data` depends only on the injected responses, not on the
Transport-internal mutable state (`retry_delay`, clock) carried over from
an earlier run — for any two starting states with the reachable-state
property `0 ≤ retry_delay`. -/
theorem c9_collect_result_state_independent (env : RepoEnv β)
    (s1 s2 : TransportState) (h1 : 0 ≤ s1.retry_delay)
    (h2 : 0 ≤ s2.retry_delay) :
    (get_repo_traffic_data env s1).result =
      (get_repo_traffic_data env s2).result := by
  have hv := get_repo_views_result_indep env.views s1 s2 h1 h2
  have hv1 : 0 ≤ (get_repo_views env.views s1).state.retry_delay := by
    rw [get_repo_views_state]; exact make_request_retry_delay_nonneg _ _ h1
  have hv2 : 0 ≤ (get_repo_views env.views s2).state.retry_delay := by
    rw [get_repo_views_state]; exact make_request_retry_delay_nonneg _ _ h2
  unfold get_repo_traffic_data
  rcases hval : (get_repo_views env.views s2).result with e | vd
  · rw [hval] at hv; simp [hv, hval]
  · rw [hval] at hv
    simp only [hv, hval]
    have hc := get_repo_clones_result_indep env.clones
      (apiCallSleep (get_repo_views env.views s1).state)
      (apiCallSleep (get_repo_views env.views s2).state)
      (by rw [apiCallSleep_retry_delay]; exact hv1)
      (by rw [apiCallSleep_retry_delay]; exact hv2)
    have hc1 : 0 ≤ (get_repo_clones env.clones
        (apiCallSleep (get_repo_views env.views s1).state)).state.retry_delay := by
      rw [get_repo_clones_state]
      exact make_request_retry_delay_nonneg _ _
        (by rw [apiCallSleep_retry_delay]; exact hv1)
    have hc2 : 0 ≤ (get_repo_clones env.clones
        (apiCallSleep (get_repo_views env.views s2).state)).state.retry_delay := by
      rw [get_repo_clones_state]
      exact make_request_retry_delay_nonneg _ _
        (by rw [apiCallSleep_retry_delay]; exact hv2)
    rcases hcval : (get_repo_clones env.clones
        (apiCallSleep (get_repo_views env.views s2).state)).result with e | cd
    · rw [hcval] at hc; simp [hc, hcval]
    · rw [hcval] at hc
      simp only [hc, hcval]
      have hr := get_repo_referrers_result_indep env.referrers
        (apiCallSleep (get_repo_clones env.clones
          (apiCallSleep (get_repo_views env.views s1).state)).state)
        (apiCallSleep (get_repo_clones env.clones
          (apiCallSleep (get_repo_views env.views s2).state)).state)
        (by rw [apiCallSleep_retry_delay]; exact hc1)
        (by rw [apiCallSleep_retry_delay]; exact hc2)
      have hr1 : 0 ≤ (get_repo_referrers env.referrers
          (apiCallSleep (get_repo_clones env.clones
            (apiCallSleep (get_repo_views env.views s1).state)).state)).state.retry_delay := by
        rw [get_repo_referrers_state]
        exact make_request_retry_delay_nonneg _ _
          (by rw [apiCallSleep_retry_delay]; exact hc1)
      have hr2 : 0 ≤ (get_repo_referrers env.referrers
          (apiCallSleep (get_repo_clones env.clones
            (apiCallSleep (get_repo_views env.views s2).state)).state)).state.retry_delay := by
        rw [get_repo_referrers_state]
        exact make_request_retry_delay_nonneg _ _
          (by rw [apiCallSleep_retry_delay]; exact hc2)
      rcases hrval : (get_repo_referrers env.referrers
          (apiCallSleep (get_repo_clones env.clones
            (apiCallSleep (get_repo_views env.views s2).state)).state)).result with e | rd
      · rw [hrval] at hr; simp [hr, hrval]
      · rw [hrval] at hr
        simp only [hr, hrval]
        have hp := get_popular_paths_result_indep env.popular_paths
          (apiCallSleep (get_repo_referrers env.referrers
            (apiCallSleep (get_repo_clones env.clones
              (apiCallSleep (get_repo_views env.views s1).state)).state)).state)
          (apiCallSleep (get_repo_referrers env.referrers
            (apiCallSleep (get_repo_clones env.clones
              (apiCallSleep (get_repo_views env.views s2).state)).state)).state)
          (by rw [apiCallSleep_retry_delay]; exact hr1)
          (by rw [apiCallSleep_retry_delay]; exact hr2)
        rcases hpval : (get_popular_paths env.popular_paths
            (apiCallSleep (get_repo_referrers env.referrers
              (apiCallSleep (get_repo_clones env.clones
                (apiCallSleep (get_repo_views env.views s2).state)).state)).state)).result with e | pd
        · rw [hpval] at hp; simp [hp, hpval]
        · rw [hpval] at hp
          simp only [hp, hpval]

/-- Witness for C9 at a concrete environment and two distinct transport
states (fresh, and post-failure-burst with an inflated delay and advanced
clock). -/
theorem c9_collect_witness :
    (get_repo_traffic_data
      (⟨fun _ => .response (okResp ⟨1, 1⟩), fun _ => .response (okResp ⟨2, 1⟩),
        fun _ => .response (okResp ⟨0, 0⟩), fun _ => .response (okResp ⟨0, 0⟩)⟩ :
        RepoEnv MetricData) ⟨2, 0⟩).result =
    (get_repo_traffic_data
      (⟨fun _ => .response (okResp ⟨1, 1⟩), fun _ => .response (okResp ⟨2, 1⟩),
        fun _ => .response (okResp ⟨0, 0⟩), fun _ => .response (okResp ⟨0, 0⟩)⟩ :
        RepoEnv MetricData) ⟨8, 100⟩).result :=
  c9_collect_result_state_independent _ ⟨2, 0⟩ ⟨8, 100⟩ (by norm_num) (by norm_num)

/-- Five consecutive 429 responses (Retry-After: 7) followed by successes. -/
def envFive429 : Nat → AttemptOutcome Unit :=
  fun k => if k < 5 then .response ⟨429, .absent, .absent, .intVal 7, ()⟩
           else .response (okResp ())

/-- C1: the claim says five consecutive 429s cause exactly five waits and
then the success is returned, with the retry counter never decremented.
In the code the 429 branch ends in `continue`, which in a Python `for`
loop advances `attempt`; so after `max_retries = 3` consecutive 429s the
loop exhausts and `make_request` returns `None`: only three waits occur
and the success is never reached — contradicting the code's own comment
`Retry without counting against max_retries`. -/
theorem c1_five_429s_exhaust_retries :
    make_request envFive429 initState =
      ⟨.ok none, ⟨2, 21⟩, [7, 7, 7], 3⟩ := by
  norm_num [make_request, max_retries, mrLoop, envFive429, retryAfterValue,
    pySleep, initState, MRResult.mk.injEq, TransportState.mk.injEq]

/-- Views endpoint answers 200 with a body. -/
def c2ViewsEnv : Nat → AttemptOutcome MetricData :=
  fun _ => .response (okResp ⟨10, 3⟩)

/-- Clones endpoint raises a request exception, so the Transport returns
the Failure value `None`. -/
def c2ClonesEnv : Nat → AttemptOutcome MetricData :=
  fun _ => .requestException

/-- Environment for C2: views succeed, the clones fetch gets a transport
Failure, referrers and paths would succeed. -/
def c2Env : RepoEnv MetricData := ⟨c2ViewsEnv, c2ClonesEnv, c2ViewsEnv, c2ViewsEnv⟩

/-- C2: the claim (and the docstring of `get_repo_clones`) says a clones
Failure leaves `clones` absent and collection proceeds.  In the code the
error print in `get_repo_clones` reads `response.status_code` without the
`elif response:` guard that `get_repo_views` has, so a `None` response
raises `AttributeError` and `get_repo_traffic_data` aborts instead of
returning a record: views succeed, yet collect raises. -/
theorem c2_clones_failure_raises :
    (get_repo_views c2ViewsEnv initState).result = .ok (some ⟨10, 3⟩) ∧
    (get_repo_traffic_data c2Env initState).result = .error .attributeError := by
  constructor
  · norm_num [get_repo_views, make_request, max_retries, mrLoop, c2ViewsEnv,
      okResp, check_rate_limit, HeaderVal.truthy]
  · norm_num [get_repo_traffic_data, get_repo_views, get_repo_clones,
      make_request, max_retries, mrLoop, c2Env, c2ViewsEnv, c2ClonesEnv,
      okResp, check_rate_limit, HeaderVal.truthy, apiCallSleep]

/-- Every attempt yields a 429 whose Retry-After header is a non-integer
string. -/
def env429Malformed : Nat → AttemptOutcome Unit :=
  fun _ => .response ⟨429, .absent, .absent, .malformed, ()⟩

/-- Counterexample to C3 as stated: with a malformed `Retry-After` header
on a 429, `int(response.headers.get('Retry-After', 60))` raises
`ValueError`, which is caught neither by the `(ReadTimeout,
ConnectionError)` clause nor by the `RequestException` clause, so the
exception escapes `make_request`. -/
theorem c3_counterexample_malformed_retry_after :
    (make_request env429Malformed initState).result = .error .valueError := by
  norm_num [make_request, max_retries, mrLoop, env429Malformed, retryAfterValue]

/-- C3 (amended): for environments whose responses carry only benign
header values (Retry-After absent or a non-negative integer, rate-limit
headers not malformed), `make_request` always returns a terminal
`Response` or the explicit Failure `None`, and no exception escapes. -/
theorem c3_amended_no_escape_with_wellformed_headers
    (env : Nat → AttemptOutcome α) (s : TransportState)
    (henv : ∀ k r, env k = .response r → r.headersOk)
    (hs : 0 ≤ s.retry_delay) :
    ∃ o, (make_request env s).result = .ok o :=
  mrLoop_ok_of_headersOk env henv max_retries 0 s hs

/-- Witness for the amended C3 at a concrete benign environment. -/
theorem c3_amended_witness :
    ∃ o : Option (Response Unit),
      (make_request (fun _ => .response (okResp ())) initState).result = .ok o :=
  c3_amended_no_escape_with_wellformed_headers _ initState
    (fun _ r h => by
      injection h with h'
      subst h'
      exact ⟨Or.inl rfl, by simp [okResp], by simp [okResp]⟩)
    (by norm_num [initState])

/-- Every attempt fails at the network level. -/
def envNet : Nat → AttemptOutcome Unit := fun _ => .networkError

/-- Counterexample to C4 as stated: on three consecutive network failures
from a fresh Transport the backoff sleeps are 2s and 4s only — there are
just two inter-attempt gaps for three attempts, so the asserted
`2s, 4s, 8s` sequence never occurs. -/
theorem c4_counterexample_backoff_sleeps :
    (make_request envNet initState).sleeps = [2, 4] ∧
    (make_request envNet initState).sleeps ≠ [2, 4, 8] := by
  constructor
  · norm_num [make_request, max_retries, mrLoop, envNet, pySleep, initState]
  · norm_num [make_request, max_retries, mrLoop, envNet, pySleep, initState]

/-- C4 (amended): for any environment whose first three attempts are
network-level failures and a Transport whose backoff delay is at its base
value 2, `make_request` sleeps 2s then 4s between the three attempts,
returns the Failure value `None` after the third failed attempt, issues
exactly three attempts (never a fourth), and leaves the doubled delay 8
behind. -/
theorem c4_amended_backoff_two_four_then_failure
    (env : Nat → AttemptOutcome α) (s : TransportState)
    (h0 : env 0 = .networkError) (h1 : env 1 = .networkError)
    (h2 : env 2 = .networkError) (hrd : s.retry_delay = 2) :
    (make_request env s).result = .ok none ∧
    (make_request env s).sleeps = [2, 4] ∧
    (make_request env s).attempts = 3 ∧
    (make_request env s).state.retry_delay = 8 := by
  norm_num [make_request, max_retries, mrLoop, h0, h1, h2, pySleep, hrd]

/-- Witness for the amended C4 at the all-failures environment and the
fresh Transport state. -/
theorem c4_amended_witness :
    (make_request envNet initState).result = .ok none ∧
    (make_request envNet initState).sleeps = [2, 4] ∧
    (make_request envNet initState).attempts = 3 ∧
    (make_request envNet initState).state.retry_delay = 8 :=
  c4_amended_backoff_two_four_then_failure envNet initState rfl rfl rfl rfl

/-- One network failure, then successes. -/
def envNetOnceThenOk : Nat → AttemptOutcome Unit :=
  fun k => if k = 0 then .networkError else .response (okResp ())

/-- Counterexample to C8 as stated: after a first call that ends in
Failure (three network errors, no successful attempt), the next call's
first backoff sleep is the inherited, inflated 8 seconds — not the base
2 — so a pair of consecutive calls can inherit an inflated backoff. -/
theorem c8_counterexample_inherited_backoff :
    (make_request envNetOnceThenOk (make_request envNet initState).state).sleeps
      = [8] ∧ ((8 : ℚ) ≠ 2) := by
  constructor
  · norm_num [make_request, max_retries, mrLoop, envNet, envNetOnceThenOk,
      pySleep, initState, check_rate_limit, okResp, HeaderVal.truthy]
  · norm_num

/-- C8 (amended): `retry_delay` is reset to the base value 2 whenever a
call returns a `Response` (any successful attempt), so the next call
inherits no inflated backoff in that case; only a call that ends in
Failure leaves the doubled delay behind. -/
theorem c8_amended_reset_on_response (env : Nat → AttemptOutcome α)
    (s : TransportState) (r : Response α)
    (h : (make_request env s).result = .ok (some r)) :
    (make_request env s).state.retry_delay = 2 :=
  mrLoop_retry_delay_two_of_some env max_retries 0 s r h

/-- Witness for the amended C8: a call that returns a response resets the
backoff delay even from an inflated starting value. -/
theorem c8_amended_witness :
    (make_request (fun _ => .response (okResp ())) ⟨16, 0⟩).state.retry_delay = 2 :=
  c8_amended_reset_on_response _ ⟨16, 0⟩ (okResp ())
    (by norm_num [make_request, max_retries, mrLoop, okResp, check_rate_limit,
      HeaderVal.truthy])

theorem check_rate_limit_remaining_absent (r : Response α) (s : TransportState)
    (h : r.remaining = .absent) :
    check_rate_limit (some r) s = .ok (s, []) := by
  simp [check_rate_limit, h, HeaderVal.truthy]

theorem make_request_first_response (env : Nat → AttemptOutcome α)
    (s : TransportState) (r : Response α) (s' : TransportState) (ds : List ℚ)
    (henv : env 0 = .response r) (h429 : r.status ≠ 429)
    (hcrl : check_rate_limit (some r) s = .ok (s', ds)) :
    make_request env s = ⟨.ok (some r), { s' with retry_delay := 2 }, ds, 1⟩ := by
  simp [make_request, max_retries, mrLoop, henv, h429, hcrl]

/-- C5: on any non-429 response whose `X-RateLimit-Remaining` header is a
well-formed integer below the threshold 50, `make_request` performs
exactly one proactive throttling sleep before returning the response
(success or error status alike): of `max(reset - now, 0) + 5` seconds when
`X-RateLimit-Reset` carries a timestamp, and of exactly 60 seconds when it
is missing (or empty, which `check_rate_limit` treats as missing). -/
theorem c5_low_remaining_sleeps (env : Nat → AttemptOutcome α)
    (s : TransportState) (r : Response α) (m : Int)
    (henv : env 0 = .response r) (h429 : r.status ≠ 429)
    (hrem : r.remaining = .intVal m) (hm : m < 50) :
    (∀ t : Int, r.reset = .intVal t →
      (make_request env s).sleeps = [max ((t : ℚ) - s.clock) 0 + 5] ∧
      (make_request env s).result = .ok (some r)) ∧
    ((r.reset = .absent ∨ r.reset = .emptyStr) →
      (make_request env s).sleeps = [60] ∧
      (make_request env s).result = .ok (some r)) := by
  constructor
  · intro t ht
    have hmax : (0 : ℚ) ≤ max ((t : ℚ) - s.clock) 0 := le_max_right _ _
    have hpos : ¬ (max ((t : ℚ) - s.clock) 0 + 5 < 0) := by linarith
    have hcrl : check_rate_limit (some r) s =
        .ok ({ s with clock := s.clock + (max ((t : ℚ) - s.clock) 0 + 5) },
             [max ((t : ℚ) - s.clock) 0 + 5]) := by
      simp [check_rate_limit, hrem, ht, HeaderVal.truthy, HeaderVal.toInt,
        pySleep, hm, hpos]
    rw [make_request_first_response env s r _ _ henv h429 hcrl]
    exact ⟨rfl, rfl⟩
  · intro ht
    have hcrl : check_rate_limit (some r) s =
        .ok ({ s with clock := s.clock + 60 }, [60]) := by
      rcases ht with ht | ht <;>
        norm_num [check_rate_limit, hrem, ht, HeaderVal.truthy,
          HeaderVal.toInt, pySleep, hm]
    rw [make_request_first_response env s r _ _ henv h429 hcrl]
    exact ⟨rfl, rfl⟩

/-- Witness for C5: a 200 response with 10 remaining calls and a reset
timestamp of 80, checked at clock 30, sleeps `max(80 - 30, 0) + 5 = 55`
seconds; the same response without a reset timestamp sleeps 60 seconds. -/
theorem c5_witness :
    ((make_request (fun _ => .response (⟨200, .intVal 10, .intVal 80, .absent, ()⟩ :
        Response Unit)) ⟨2, 30⟩).sleeps = [max ((80 : ℚ) - 30) 0 + 5] ∧
      (make_request (fun _ => .response (⟨200, .intVal 10, .intVal 80, .absent, ()⟩ :
        Response Unit)) ⟨2, 30⟩).result =
        .ok (some ⟨200, .intVal 10, .intVal 80, .absent, ()⟩)) ∧
    ((make_request (fun _ => .response (⟨200, .intVal 10, .absent, .absent, ()⟩ :
        Response Unit)) ⟨2, 30⟩).sleeps = [60] ∧
      (make_request (fun _ => .response (⟨200, .intVal 10, .absent, .absent, ()⟩ :
        Response Unit)) ⟨2, 30⟩).result =
        .ok (some ⟨200, .intVal 10, .absent, .absent, ()⟩)) :=
  ⟨(c5_low_remaining_sleeps _ ⟨2, 30⟩ _ 10 rfl (by norm_num) rfl
      (by norm_num)).1 80 rfl,
   (c5_low_remaining_sleeps _ ⟨2, 30⟩ _ 10 rfl (by norm_num) rfl
      (by norm_num)).2 (Or.inl rfl)⟩

theorem gurLoop_step_nonempty (env : Nat → Nat → AttemptOutcome (List RepoSummary))
    (f pg : Nat) (p acc : List RepoSummary) (reqs : List ReqParams)
    (s : TransportState) (h : env pg 0 = .response (okResp p)) (hp : p ≠ []) :
    gurLoop env (f + 1) pg acc reqs s =
      gurLoop env f (pg + 1) (acc ++ p) (reqs ++ [⟨100, "owner", pg⟩])
        ⟨2, s.clock + 1 / 2⟩ := by
  have m := make_request_first_response (env pg) s (okResp p) s []
    h (by simp [okResp]) (check_rate_limit_remaining_absent _ _ rfl)
  simp [gurLoop, m, okResp, hp]

theorem gurLoop_stop_empty (env : Nat → Nat → AttemptOutcome (List RepoSummary))
    (f pg : Nat) (acc : List RepoSummary) (reqs : List ReqParams)
    (s : TransportState) (h : env pg 0 = .response (okResp [])) :
    gurLoop env (f + 1) pg acc reqs s =
      some ⟨.ok acc, reqs ++ [⟨100, "owner", pg⟩], ⟨2, s.clock⟩⟩ := by
  have m := make_request_first_response (env pg) s (okResp []) s []
    h (by simp [okResp]) (check_rate_limit_remaining_absent _ _ rfl)
  simp [gurLoop, m, okResp]

theorem gurLoop_stop_failure (env : Nat → Nat → AttemptOutcome (List RepoSummary))
    (f pg : Nat) (acc : List RepoSummary) (reqs : List ReqParams)
    (s : TransportState) (h : env pg 0 = .requestException) :
    gurLoop env (f + 1) pg acc reqs s =
      some ⟨.ok acc, reqs ++ [⟨100, "owner", pg⟩], s⟩ := by
  simp [gurLoop, make_request, max_retries, mrLoop, h]

theorem gurLoop_stop_non200 (env : Nat → Nat → AttemptOutcome (List RepoSummary))
    (f pg : Nat) (acc : List RepoSummary) (reqs : List ReqParams)
    (s : TransportState) (r : Response (List RepoSummary))
    (h : env pg 0 = .response r) (h200 : r.status ≠ 200) (h429 : r.status ≠ 429)
    (hrem : r.remaining = .absent) :
    gurLoop env (f + 1) pg acc reqs s =
      some ⟨.ok acc, reqs ++ [⟨100, "owner", pg⟩], ⟨2, s.clock⟩⟩ := by
  have m := make_request_first_response (env pg) s r s []
    h h429 (check_rate_limit_remaining_absent _ _ hrem)
  simp [gurLoop, m, h200]

/-- C6: `get_user_repos` requests pages from 1 upward with the fixed
parameters `per_page=100, type=owner`; given three non-empty pages
followed by an empty page it returns exactly the three pages' items
concatenated in server order and issues exactly four requests (none for a
fifth page); and it stops immediately on a Transport Failure or a non-200
status, returning the items accumulated so far. -/
theorem c6_pagination_stops (p1 p2 p3 : List RepoSummary)
    (env : Nat → Nat → AttemptOutcome (List RepoSummary))
    (s : TransportState) (fuel : Nat) (hf : 4 ≤ fuel)
    (hp1 : p1 ≠ []) (hp2 : p2 ≠ []) (hp3 : p3 ≠ [])
    (h1 : env 1 0 = .response (okResp p1)) (h2 : env 2 0 = .response (okResp p2))
    (h3 : env 3 0 = .response (okResp p3))
    (h4 : env 4 0 = .response (okResp [])) :
    (∃ s4, get_user_repos env fuel s =
      some ⟨.ok (p1 ++ p2 ++ p3),
        [⟨100, "owner", 1⟩, ⟨100, "owner", 2⟩, ⟨100, "owner", 3⟩,
         ⟨100, "owner", 4⟩], s4⟩) ∧
    (∀ (env2 : Nat → Nat → AttemptOutcome (List RepoSummary)) s2,
      env2 1 0 = .requestException →
      ∃ s', get_user_repos env2 fuel s2 =
        some ⟨.ok [], [⟨100, "owner", 1⟩], s'⟩) ∧
    (∀ (env3 : Nat → Nat → AttemptOutcome (List RepoSummary)) s3
        (r : Response (List RepoSummary)),
      env3 1 0 = .response r → r.status ≠ 200 → r.status ≠ 429 →
      r.remaining = .absent →
      ∃ s', get_user_repos env3 fuel s3 =
        some ⟨.ok [], [⟨100, "owner", 1⟩], s'⟩) := by
  obtain ⟨k, hk⟩ := Nat.exists_eq_add_of_le hf
  rw [Nat.add_comm] at hk
  subst hk
  refine ⟨?_, ?_, ?_⟩
  · refine ⟨⟨2, s.clock + 1 / 2 + 1 / 2 + 1 / 2⟩, ?_⟩
    have e1 : get_user_repos env (k + 4) s = gurLoop env (k + 3 + 1) 1 [] [] s := rfl
    rw [e1, gurLoop_step_nonempty env (k + 3) 1 p1 [] [] s h1 hp1]
    rw [gurLoop_step_nonempty env (k + 2) 2 p2 _ _ _ h2 hp2]
    rw [gurLoop_step_nonempty env (k + 1) 3 p3 _ _ _ h3 hp3]
    rw [gurLoop_stop_empty env k 4 _ _ _ h4]
    simp
  · intro env2 s2 h
    refine ⟨s2, ?_⟩
    have e1 : get_user_repos env2 (k + 4) s2 = gurLoop env2 (k + 3 + 1) 1 [] [] s2 := rfl
    rw [e1, gurLoop_stop_failure env2 (k + 3) 1 [] [] s2 h]
    simp
  · intro env3 s3 r h h200 h429 hrem
    refine ⟨⟨2, s3.clock⟩, ?_⟩
    have e1 : get_user_repos env3 (k + 4) s3 = gurLoop env3 (k + 3 + 1) 1 [] [] s3 := rfl
    rw [e1, gurLoop_stop_non200 env3 (k + 3) 1 [] [] s3 r h h200 h429 hrem]
    simp

/-- Repository objects for concrete pagination scenarios. -/
def rA : RepoSummary := ⟨"a", "u/a", none, 1, 0, none, "t0", "t1"⟩

def rB : RepoSummary := ⟨"b", "u/b", some "d", 2, 1, some "Py", "t2", "t3"⟩

def rC : RepoSummary := ⟨"c", "u/c", none, 0, 0, none, "t4", "t5"⟩

/-- Page environment with three one-repository pages and an empty fourth
page. -/
def c6env : Nat → Nat → AttemptOutcome (List RepoSummary) :=
  fun pg _ =>
    if pg = 1 then .response (okResp [rA])
    else if pg = 2 then .response (okResp [rB])
    else if pg = 3 then .response (okResp [rC])
    else .response (okResp [])

/-- Witness for C6: with the three-pages-then-empty environment and fuel 4,
exactly the four page requests are issued and the concatenation is
returned. -/
theorem c6_witness :
    ∃ s4, get_user_repos c6env 4 initState =
      some ⟨.ok ([rA] ++ [rB] ++ [rC]),
        [⟨100, "owner", 1⟩, ⟨100, "owner", 2⟩, ⟨100, "owner", 3⟩,
         ⟨100, "owner", 4⟩], s4⟩ :=
  (c6_pagination_stops [rA] [rB] [rC] c6env initState 4 (by norm_num)
    (by simp) (by simp) (by simp) rfl rfl rfl rfl).1

theorem foldl_psStep (l : List (String × RepoRecord MetricData))
    (a b c : Nat) :
    l.foldl psStep (a, b, c) =
      (a + (l.map fun kv => viewsCount kv.2).sum,
       b + (l.map fun kv => viewsUniques kv.2).sum,
       c + (l.map fun kv => clonesCount kv.2).sum) := by
  induction l generalizing a b c with
  | nil => simp
  | cons hd tl ih =>
    simp only [List.foldl_cons, List.map_cons, List.sum_cons, psStep, ih,
      Prod.mk.injEq]
    exact ⟨by omega, by omega, by omega⟩

/-- Report from the spec's end-to-end scenario: repository `a` with all
metrics present (`views.count=10`, `clones.count=2`), repository `b` with
views absent and `clones.count=5`. -/
def c7Report : List (String × RepoRecord MetricData) :=
  [("a", ⟨mkRepoInfo rA, some ⟨10, 3⟩, some ⟨2, 1⟩, some ⟨4, 2⟩, some ⟨6, 3⟩⟩),
   ("b", ⟨mkRepoInfo rB, none, some ⟨5, 2⟩, none, none⟩)]

/-- C7: `print_summary` totals are the sums of `count`/`uniques` over
exactly the records whose views (respectively clones) field is present,
absent fields contributing zero; on the spec's scenario report the totals
are `total_views = 10` and `total_clones = 2 + 5 = 7`. -/
theorem c7_summary_totals :
    (∀ report : List (String × RepoRecord MetricData),
      print_summary report =
        ((report.map fun kv => viewsCount kv.2).sum,
         (report.map fun kv => viewsUniques kv.2).sum,
         (report.map fun kv => clonesCount kv.2).sum)) ∧
    print_summary c7Report = (10, 3, 7) := by
  constructor
  · intro report
    have h := foldl_psStep report 0 0 0
    simpa [print_summary] using h
  · rfl

theorem dictFind_dictInsert_self (k : String) (v : γ) (l : List (String × γ)) :
    dictFind k (dictInsert k v l) = some v := by
  induction l with
  | nil => simp [dictInsert, dictFind]
  | cons hd tl ih =>
    obtain ⟨k', v'⟩ := hd
    by_cases h : k' = k
    · simp [dictInsert, dictFind, h]
    · simp [dictInsert, dictFind, h, ih]

theorem dictFind_dictInsert_ne (k k2 : String) (hne : k2 ≠ k) (v : γ)
    (l : List (String × γ)) :
    dictFind k2 (dictInsert k v l) = dictFind k2 l := by
  have hkk2 : ¬ (k = k2) := fun h => hne h.symm
  induction l with
  | nil => simp [dictInsert, dictFind, hkk2]
  | cons hd tl ih =>
    obtain ⟨k', v'⟩ := hd
    by_cases h : k' = k
    · subst h
      simp [dictInsert, dictFind, hkk2]
    · by_cases h2 : k' = k2
      · subst h2
        simp [dictInsert, dictFind, h]
      · simp [dictInsert, dictFind, h, h2, ih]

theorem gatLoop_ok_preserves (renv : Nat → RepoEnv β) (total : Nat) :
    ∀ (repos : List RepoSummary) (i : Nat)
      (acc report : List (String × RepoRecord β)) (s sFin : TransportState),
      gatLoop renv total repos i acc s = ⟨.ok report, sFin⟩ →
      ∀ k, (dictFind k acc).isSome → (dictFind k report).isSome := by
  intro repos
  induction repos with
  | nil =>
    intro i acc report s sFin h k hk
    simp only [gatLoop, RunOut.mk.injEq, Except.ok.injEq] at h
    rw [← h.1]; exact hk
  | cons repo rest ih =>
    intro i acc report s sFin h k hk
    cases ht : (get_repo_traffic_data (renv i) s).result with
    | error e => simp [gatLoop, ht] at h
    | ok t =>
      simp only [gatLoop, ht] at h
      refine ih (i + 1) _ report _ sFin h k ?_
      by_cases hkn : k = repo.name
      · subst hkn; simp [dictFind_dictInsert_self]
      · rw [dictFind_dictInsert_ne repo.name k hkn]; exact hk

theorem gatLoop_provenance (renv : Nat → RepoEnv β) (total : Nat) :
    ∀ (repos : List RepoSummary) (i : Nat)
      (acc report : List (String × RepoRecord β)) (s sFin : TransportState),
      gatLoop renv total repos i acc s = ⟨.ok report, sFin⟩ →
      ∀ k rcd, dictFind k report = some rcd →
        dictFind k acc = some rcd ∨
        ∃ src ∈ repos, src.name = k ∧ rcd.repository_info = mkRepoInfo src := by
  intro repos
  induction repos with
  | nil =>
    intro i acc report s sFin h k rcd hk
    simp only [gatLoop, RunOut.mk.injEq, Except.ok.injEq] at h
    rw [← h.1] at hk
    exact Or.inl hk
  | cons repo rest ih =>
    intro i acc report s sFin h k rcd hk
    cases ht : (get_repo_traffic_data (renv i) s).result with
    | error e => simp [gatLoop, ht] at h
    | ok t =>
      simp only [gatLoop, ht] at h
      rcases ih (i + 1) _ report _ sFin h k rcd hk with hacc | ⟨src, hsrc, hn, hi⟩
      · by_cases hkn : k = repo.name
        · subst hkn
          rw [dictFind_dictInsert_self] at hacc
          refine Or.inr ⟨repo, List.mem_cons_self _ _, rfl, ?_⟩
          rw [← Option.some.injEq] at hacc
          cases hacc
          rfl
        · rw [dictFind_dictInsert_ne repo.name k hkn] at hacc
          exact Or.inl hacc
      · exact Or.inr ⟨src, List.mem_cons_of_mem _ hsrc, hn, hi⟩

theorem gatLoop_covers (renv : Nat → RepoEnv β) (total : Nat) :
    ∀ (repos : List RepoSummary) (i : Nat)
      (acc report : List (String × RepoRecord β)) (s sFin : TransportState),
      gatLoop renv total repos i acc s = ⟨.ok report, sFin⟩ →
      ∀ repo ∈ repos, (dictFind repo.name report).isSome := by
  intro repos
  induction repos with
  | nil => intro i acc report s sFin h repo hmem; simp at hmem
  | cons hd rest ih =>
    intro i acc report s sFin h repo hmem
    cases ht : (get_repo_traffic_data (renv i) s).result with
    | error e => simp [gatLoop, ht] at h
    | ok t =>
      simp only [gatLoop, ht] at h
      rcases List.mem_cons.1 hmem with heq | hmem2
      · subst heq
        exact gatLoop_ok_preserves renv total rest (i + 1) _ report _ sFin h
          repo.name (by simp [dictFind_dictInsert_self])
      · exact ih (i + 1) _ report _ sFin h repo hmem2

/-- C10: whenever `get_all_traffic_data` completes with a report, every
repository returned by enumeration has a record under its name whose
`repository_info` is present and populated (exactly the eight fields of
`RepoInfo` — name, full_name, description, stars, forks, language,
created_at, updated_at) from some enumerated repository of that name, with
`repository_info.name` equal to the record's key — regardless of whether
any metric fields are absent. -/
theorem c10_repository_info_present (env : RunEnv β) (fuel : Nat)
    (s : TransportState) (pg : PagOut) (repos : List RepoSummary)
    (report : List (String × RepoRecord β)) (sFin : TransportState)
    (hpg : get_user_repos env.pages fuel s = some pg)
    (hrepos : pg.result = .ok repos)
    (hall : get_all_traffic_data env fuel s = some ⟨.ok report, sFin⟩) :
    ∀ repo ∈ repos, ∃ rcd, dictFind repo.name report = some rcd ∧
      rcd.repository_info.name = repo.name ∧
      ∃ src ∈ repos, rcd.repository_info = mkRepoInfo src := by
  simp only [get_all_traffic_data, hpg, hrepos] at hall
  by_cases hemp : repos = []
  · intro repo hmem
    rw [hemp] at hmem
    simp at hmem
  · rw [if_neg hemp, Option.some.injEq] at hall
    intro repo hmem
    have hcov := gatLoop_covers env.repoEnv repos.length repos 1 [] report
      pg.state sFin hall repo hmem
    obtain ⟨rcd, hrcd⟩ := Option.isSome_iff_exists.1 hcov
    rcases gatLoop_provenance env.repoEnv repos.length repos 1 [] report
        pg.state sFin hall repo.name rcd hrcd with hacc | ⟨src, hsrc, hn, hi⟩
    · simp [dictFind] at hacc
    · refine ⟨rcd, hrcd, ?_, src, hsrc, hi⟩
      rw [hi]
      exact hn

/-- Page environment for the C10 witness: one page with `rA`, then empty. -/
def c10pages : Nat → Nat → AttemptOutcome (List RepoSummary) :=
  fun pg _ => if pg = 1 then .response (okResp [rA]) else .response (okResp [])

/-- Metric environment for the C10 witness: every metric endpoint answers
404, so all four metric fields end up absent without raising. -/
def c10metric : Nat → AttemptOutcome MetricData :=
  fun _ => .response ⟨404, .absent, .absent, .absent, ⟨0, 0⟩⟩

/-- Run environment for the C10 witness. -/
def c10env : RunEnv MetricData :=
  ⟨c10pages, fun _ => ⟨c10metric, c10metric, c10metric, c10metric⟩⟩

/-- The pagination outcome of the C10 witness run. -/
def c10pg : PagOut :=
  ⟨.ok [rA], [⟨100, "owner", 1⟩, ⟨100, "owner", 2⟩], ⟨2, 1 / 2⟩⟩

/-- The report of the C10 witness run: `repository_info` present, all
four metric fields absent. -/
def c10Report : List (String × RepoRecord MetricData) :=
  [("a", ⟨mkRepoInfo rA, none, none, none, none⟩)]

/-- Witness for C10 at a concrete run in which every metric fetch fails
with a 404, so all four metric fields are absent and `repository_info` is
still present and keyed consistently. -/
theorem c10_witness :
    ∃ rcd, dictFind rA.name c10Report = some rcd ∧
      rcd.repository_info.name = rA.name ∧
      ∃ src ∈ [rA], rcd.repository_info = mkRepoInfo src :=
  c10_repository_info_present c10env 2 initState c10pg [rA] c10Report ⟨2, 2⟩
    (by norm_num [get_user_repos, gurLoop, make_request, max_retries, mrLoop,
      c10env, c10pages, okResp, check_rate_limit, HeaderVal.truthy, initState,
      c10pg, PagOut.mk.injEq, TransportState.mk.injEq])
    rfl
    (by norm_num [get_all_traffic_data, get_user_repos, gurLoop, gatLoop,
      get_repo_traffic_data, get_repo_views, get_repo_clones,
      get_repo_referrers, get_popular_paths, make_request, max_retries,
      mrLoop, check_rate_limit, HeaderVal.truthy, apiCallSleep, dictInsert,
      c10env, c10pages, c10metric, okResp, initState, c10Report, rA,
      RunOut.mk.injEq, TransportState.mk.injEq])
    rA (by simp)

end GHTraffic
